import Mathlib

/-!
Payment adapters and the name-keyed gateway of Adapter.cpp

A shallow embedding of `src/Adapter.cpp`.

* `cout << a << b << endl` is modelled by the text it writes: `a ++ b ++ "\n"`.
* Every C++ member function is modelled by a function that returns an `Effect`:
  the text it wrote to `cout` and the value it returned (`RetVal.void` for a
  `void` function).
* `PaymentProvider *` is modelled by `Ptr PaymentProvider` (`Ptr.null` is
  `nullptr`), the abstract class `PaymentProvider` by the record of its three
  virtual member functions.
* `unordered_map<string, PaymentProvider *>` is modelled by a finite-support
  function `String → Option (Ptr PaymentProvider)`; `none` means that the key is
  absent. `operator[]` default-inserts a null pointer for an absent key.
* A call through a null pointer is undefined behaviour; it is modelled by the
  outcome `Outcome.nullDeref`, which records the registry and the text written
  at the moment of the fault.
-/

set_option maxRecDepth 8000

namespace Adapter

/-- Value returned by a C++ call: nothing (`void`), a `bool` or an `int`. -/
inductive RetVal where
  | void
  | bool (b : Bool)
  | int (n : Int)
  deriving DecidableEq, Repr

/-- Observable effect of a call that completes: the text written to `cout` and the returned value. -/
structure Effect where
  out : String
  ret : RetVal
  deriving DecidableEq, Repr

/-- Class `PayPal` (lines 7-23): an empty class. -/
structure PayPal where
  deriving DecidableEq, Repr

/-- Default constructor `PayPal() = default`. -/
def PayPal.ctor : PayPal := {}

/-- Member `void PayPal::makePayment(string item)` (lines 11-13). -/
def PayPal.makePayment (_self : PayPal) (item : String) : Effect :=
  { out := "Making PayPal payment for item: " ++ item ++ "\n", ret := RetVal.void }

/-- Member `bool PayPal::verifyPayment(string transactionId)` (lines 15-18). -/
def PayPal.verifyPayment (_self : PayPal) (transactionId : String) : Effect :=
  { out := "Verifying PayPal payment with transaction ID: " ++ transactionId ++ "\n",
    ret := RetVal.bool true }

/-- Member `void PayPal::refundPayment(string item)` (lines 20-22). -/
def PayPal.refundPayment (_self : PayPal) (item : String) : Effect :=
  { out := "Refunding PayPal payment for item: " ++ item ++ "\n", ret := RetVal.void }

/-- Class `Stripe` (lines 25-41): an empty class. -/
structure Stripe where
  deriving DecidableEq, Repr

/-- Default constructor `Stripe() = default`. -/
def Stripe.ctor : Stripe := {}

/-- Member `void Stripe::chargePayment(string item)` (lines 29-31). -/
def Stripe.chargePayment (_self : Stripe) (item : String) : Effect :=
  { out := "Charging Stripe payment for item: " ++ item ++ "\n", ret := RetVal.void }

/-- Member `bool Stripe::verifyCharge(string transactionId)` (lines 33-36). -/
def Stripe.verifyCharge (_self : Stripe) (transactionId : String) : Effect :=
  { out := "Verifying Stripe payment with transaction ID: " ++ transactionId ++ "\n",
    ret := RetVal.bool true }

/-- Member `void Stripe::issueRefund(string item)` (lines 38-40). -/
def Stripe.issueRefund (_self : Stripe) (item : String) : Effect :=
  { out := "Issuing Refund for Stripe payment for item: " ++ item ++ "\n", ret := RetVal.void }

/-- Abstract class `PaymentProvider` (lines 43-50): its three pure virtual member functions,
all declared `void`. -/
structure PaymentProvider where
  proccessPayment : String → Effect
  handleRefund : String → Effect
  verifyPayment : String → Effect

/-- Class `PaypalAdapter` (lines 53-70): owns one `PayPal`. -/
structure PaypalAdapter where
  payPal : PayPal
  deriving DecidableEq, Repr

/-- Constructor `PaypalAdapter(PayPal pal) : payPal(pal)`. -/
def PaypalAdapter.ctor (pal : PayPal) : PaypalAdapter := { payPal := pal }

/-- Member `void PaypalAdapter::proccessPayment(string item)`: the statement
`payPal.makePayment(item);`. -/
def PaypalAdapter.proccessPayment (self : PaypalAdapter) (item : String) : Effect :=
  let e := self.payPal.makePayment item
  { out := e.out, ret := RetVal.void }

/-- Member `void PaypalAdapter::handleRefund(string item)`: the statement
`payPal.refundPayment(item);`. -/
def PaypalAdapter.handleRefund (self : PaypalAdapter) (item : String) : Effect :=
  let e := self.payPal.refundPayment item
  { out := e.out, ret := RetVal.void }

/-- Member `void PaypalAdapter::verifyPayment(string transactionID)`: the expression statement
`payPal.verifyPayment(transactionID);`, whose `bool` value is discarded. -/
def PaypalAdapter.verifyPayment (self : PaypalAdapter) (transactionID : String) : Effect :=
  let e := self.payPal.verifyPayment transactionID
  { out := e.out, ret := RetVal.void }

/-- Base-class view of a `PaypalAdapter` (`: public PaymentProvider`): its virtual table. -/
def PaypalAdapter.toPaymentProvider (self : PaypalAdapter) : PaymentProvider :=
  { proccessPayment := self.proccessPayment
    handleRefund := self.handleRefund
    verifyPayment := self.verifyPayment }

/-- Class `StripeAdapter` (lines 73-90): owns one `Stripe`. -/
structure StripeAdapter where
  stripe : Stripe
  deriving DecidableEq, Repr

/-- Constructor `StripeAdapter(Stripe str) : stripe(str)`. -/
def StripeAdapter.ctor (str : Stripe) : StripeAdapter := { stripe := str }

/-- Member `void StripeAdapter::proccessPayment(string item)`: the statement
`stripe.chargePayment(item);`. -/
def StripeAdapter.proccessPayment (self : StripeAdapter) (item : String) : Effect :=
  let e := self.stripe.chargePayment item
  { out := e.out, ret := RetVal.void }

/-- Member `void StripeAdapter::handleRefund(string item)`: the statement
`stripe.issueRefund(item);`. -/
def StripeAdapter.handleRefund (self : StripeAdapter) (item : String) : Effect :=
  let e := self.stripe.issueRefund item
  { out := e.out, ret := RetVal.void }

/-- Member `void StripeAdapter::verifyPayment(string transactionID)`: the expression statement
`stripe.verifyCharge(transactionID);`, whose `bool` value is discarded. -/
def StripeAdapter.verifyPayment (self : StripeAdapter) (transactionID : String) : Effect :=
  let e := self.stripe.verifyCharge transactionID
  { out := e.out, ret := RetVal.void }

/-- Base-class view of a `StripeAdapter` (`: public PaymentProvider`): its virtual table. -/
def StripeAdapter.toPaymentProvider (self : StripeAdapter) : PaymentProvider :=
  { proccessPayment := self.proccessPayment
    handleRefund := self.handleRefund
    verifyPayment := self.verifyPayment }

/-- A C++ pointer `T *`: `nullptr` or the address of an object. -/
inductive Ptr (α : Type) where
  | null
  | addr (obj : α)

/-- The type `unordered_map<string, PaymentProvider *>`: `none` for an absent key. -/
abbrev ProviderMap := String → Option (Ptr PaymentProvider)

/-- The empty map `unordered_map<string, PaymentProvider *>()`. -/
def ProviderMap.empty : ProviderMap := fun _ => none

/-- The call `m[key]` (`unordered_map::operator[]`): when `key` is absent a value-initialised
entry (`nullptr`) is inserted first. Returns the map afterwards and the mapped pointer. -/
def ProviderMap.index (m : ProviderMap) (key : String) : ProviderMap × Ptr PaymentProvider :=
  match m key with
  | some p => (m, p)
  | none => (fun k => if k = key then some Ptr.null else m k, Ptr.null)

/-- Assignment through the reference returned by `m[key]`: the entry of `key` becomes `p`. -/
def ProviderMap.assign (m : ProviderMap) (key : String) (p : Ptr PaymentProvider) : ProviderMap :=
  fun k => if k = key then some p else m k

/-- Class `PaymentGateWay` (lines 93-117): the private member `paymentProviders`. -/
structure PaymentGateWay where
  paymentProviders : ProviderMap

/-- Result of running code on a gateway: normal completion with the gateway afterwards and the
effect, or a call through a null `PaymentProvider *` (undefined behaviour) with the gateway and
the text written up to that point. -/
inductive Outcome where
  | returns (gw : PaymentGateWay) (eff : Effect)
  | nullDeref (gw : PaymentGateWay) (out : String)

/-- The gateway at the end of the run (at the fault, for `nullDeref`). -/
def Outcome.gateway : Outcome → PaymentGateWay
  | Outcome.returns gw _ => gw
  | Outcome.nullDeref gw _ => gw

/-- What the caller observes: the effect of a call that completes, `none` for a fault. -/
def Outcome.effect : Outcome → Option Effect
  | Outcome.returns _ eff => some eff
  | Outcome.nullDeref _ _ => none

/-- Whether the call completed normally. -/
def Outcome.completes : Outcome → Bool
  | Outcome.returns _ _ => true
  | Outcome.nullDeref _ _ => false

/-- Whether the run ended in a call through a null `PaymentProvider *`. -/
def Outcome.derefsNull : Outcome → Bool
  | Outcome.returns _ _ => false
  | Outcome.nullDeref _ _ => true

/-- Constructor `PaymentGateWay()`: `paymentProviders = unordered_map<...>()`. -/
def PaymentGateWay.ctor : PaymentGateWay := { paymentProviders := ProviderMap.empty }

/-- Whether `providerName` is a key of the registry. -/
def PaymentGateWay.registered (self : PaymentGateWay) (providerName : String) : Bool :=
  (self.paymentProviders providerName).isSome

/-- Member `addPaymentProvider` (lines 102-104):
`paymentProviders[providerName] = paymentProvider;`. -/
def PaymentGateWay.addPaymentProvider (self : PaymentGateWay) (providerName : String)
    (paymentProvider : Ptr PaymentProvider) : PaymentGateWay :=
  let r := self.paymentProviders.index providerName
  { paymentProviders := r.1.assign providerName paymentProvider }

/-- Member `processPayment` (lines 106-108):
`paymentProviders[providerName]->proccessPayment(paymentInfo);`. -/
def PaymentGateWay.processPayment (self : PaymentGateWay) (providerName paymentInfo : String) :
    Outcome :=
  let r := self.paymentProviders.index providerName
  match r.2 with
  | Ptr.null => Outcome.nullDeref { paymentProviders := r.1 } ""
  | Ptr.addr a =>
    Outcome.returns { paymentProviders := r.1 }
      { out := (a.proccessPayment paymentInfo).out, ret := RetVal.void }

/-- Member `refundPayment` (lines 110-112):
`paymentProviders[providerName]->handleRefund(refundInfo);`. -/
def PaymentGateWay.refundPayment (self : PaymentGateWay) (providerName refundInfo : String) :
    Outcome :=
  let r := self.paymentProviders.index providerName
  match r.2 with
  | Ptr.null => Outcome.nullDeref { paymentProviders := r.1 } ""
  | Ptr.addr a =>
    Outcome.returns { paymentProviders := r.1 }
      { out := (a.handleRefund refundInfo).out, ret := RetVal.void }

/-- Member `void verifyPayment` (lines 114-116):
`paymentProviders[providerName]->verifyPayment(paymentInfo);`. -/
def PaymentGateWay.verifyPayment (self : PaymentGateWay) (providerName paymentInfo : String) :
    Outcome :=
  let r := self.paymentProviders.index providerName
  match r.2 with
  | Ptr.null => Outcome.nullDeref { paymentProviders := r.1 } ""
  | Ptr.addr a =>
    Outcome.returns { paymentProviders := r.1 }
      { out := (a.verifyPayment paymentInfo).out, ret := RetVal.void }

/-- Sequencing of two statements: the second runs on the gateway left by the first, its text is
appended; a fault in the first stops the run. -/
def Outcome.andThen (o : Outcome) (next : PaymentGateWay → Outcome) : Outcome :=
  match o with
  | Outcome.nullDeref gw out => Outcome.nullDeref gw out
  | Outcome.returns gw eff =>
    match next gw with
    | Outcome.nullDeref gw2 out2 => Outcome.nullDeref gw2 (eff.out ++ out2)
    | Outcome.returns gw2 eff2 => Outcome.returns gw2 { out := eff.out ++ eff2.out, ret := eff2.ret }

/-- Function `int main()` (lines 120-137); falling off the end of `main` returns 0. -/
def main : Outcome :=
  let gateWay := PaymentGateWay.ctor
  let payPal := PayPal.ctor
  let stripe := Stripe.ctor
  let adoptedPal := PaypalAdapter.ctor payPal
  let stripeAdopted := StripeAdapter.ctor stripe
  let gateWay := gateWay.addPaymentProvider "PayPal" (Ptr.addr adoptedPal.toPaymentProvider)
  let gateWay := gateWay.addPaymentProvider "Stripe" (Ptr.addr stripeAdopted.toPaymentProvider)
  (((((((gateWay.processPayment "PayPal" "apple").andThen
    fun g => g.processPayment "Stripe" "orange").andThen
    fun g => g.refundPayment "PayPal" "apple").andThen
    fun g => g.refundPayment "Stripe" "orange").andThen
    fun g => g.verifyPayment "PayPal" "1").andThen
    fun g => g.verifyPayment "Stripe" "2").andThen
    fun g => Outcome.returns g { out := "", ret := RetVal.int 0 })

/-! Lemmas on the registry and on dispatch. -/

/-- On a present key `m[key]` leaves the map as it is and yields the mapped pointer. -/
theorem ProviderMap.index_of_some (m : ProviderMap) (key : String) (p : Ptr PaymentProvider)
    (h : m key = some p) : m.index key = (m, p) := by
  simp [ProviderMap.index, h]

/-- On an absent key `m[key]` inserts a null entry and yields the null pointer. -/
theorem ProviderMap.index_of_none (m : ProviderMap) (key : String) (h : m key = none) :
    m.index key = (fun k => if k = key then some Ptr.null else m k, Ptr.null) := by
  simp [ProviderMap.index, h]

/-- The call `m[key]` leaves the entries of the other keys as they are. -/
theorem ProviderMap.index_fst_other (m : ProviderMap) (key k : String) (h : k ≠ key) :
    (m.index key).1 k = m k := by
  unfold ProviderMap.index
  split <;> simp [h]

/-- After `addPaymentProvider(N, p)` the entry of `N` is `p`. -/
theorem PaymentGateWay.add_lookup_self (gw : PaymentGateWay) (N : String)
    (p : Ptr PaymentProvider) : (gw.addPaymentProvider N p).paymentProviders N = some p := by
  simp [PaymentGateWay.addPaymentProvider, ProviderMap.assign]

/-- After `addPaymentProvider(N, p)` the entry of another name is unchanged. -/
theorem PaymentGateWay.add_lookup_other (gw : PaymentGateWay) (N M : String)
    (p : Ptr PaymentProvider) (h : M ≠ N) :
    (gw.addPaymentProvider N p).paymentProviders M = gw.paymentProviders M := by
  simp [PaymentGateWay.addPaymentProvider, ProviderMap.assign, h,
    ProviderMap.index_fst_other _ _ _ h]

/-- The member `processPayment` on a name registered to an adapter object. -/
theorem PaymentGateWay.processPayment_of_adapter (gw : PaymentGateWay) (N x : String)
    (A : PaymentProvider) (h : gw.paymentProviders N = some (Ptr.addr A)) :
    gw.processPayment N x
      = Outcome.returns gw { out := (A.proccessPayment x).out, ret := RetVal.void } := by
  simp [PaymentGateWay.processPayment, ProviderMap.index_of_some _ _ _ h]

/-- The member `refundPayment` on a name registered to an adapter object. -/
theorem PaymentGateWay.refundPayment_of_adapter (gw : PaymentGateWay) (N x : String)
    (A : PaymentProvider) (h : gw.paymentProviders N = some (Ptr.addr A)) :
    gw.refundPayment N x
      = Outcome.returns gw { out := (A.handleRefund x).out, ret := RetVal.void } := by
  simp [PaymentGateWay.refundPayment, ProviderMap.index_of_some _ _ _ h]

/-- The member `verifyPayment` on a name registered to an adapter object. -/
theorem PaymentGateWay.verifyPayment_of_adapter (gw : PaymentGateWay) (N x : String)
    (A : PaymentProvider) (h : gw.paymentProviders N = some (Ptr.addr A)) :
    gw.verifyPayment N x
      = Outcome.returns gw { out := (A.verifyPayment x).out, ret := RetVal.void } := by
  simp [PaymentGateWay.verifyPayment, ProviderMap.index_of_some _ _ _ h]

/-- Dispatch on a name registered to a null pointer: a call through null, registry unchanged. -/
theorem PaymentGateWay.dispatch_of_null (gw : PaymentGateWay) (N x : String)
    (h : gw.paymentProviders N = some Ptr.null) :
    gw.processPayment N x = Outcome.nullDeref gw ""
      ∧ gw.refundPayment N x = Outcome.nullDeref gw ""
      ∧ gw.verifyPayment N x = Outcome.nullDeref gw "" := by
  simp [PaymentGateWay.processPayment, PaymentGateWay.refundPayment,
    PaymentGateWay.verifyPayment, ProviderMap.index_of_some _ _ _ h]

/-- Dispatch on an absent name: a null entry is inserted and the call goes through null. -/
theorem PaymentGateWay.dispatch_of_absent (gw : PaymentGateWay) (N x : String)
    (h : gw.paymentProviders N = none) :
    gw.processPayment N x
        = Outcome.nullDeref
            { paymentProviders := fun k => if k = N then some Ptr.null else gw.paymentProviders k }
            ""
      ∧ gw.refundPayment N x
        = Outcome.nullDeref
            { paymentProviders := fun k => if k = N then some Ptr.null else gw.paymentProviders k }
            ""
      ∧ gw.verifyPayment N x
        = Outcome.nullDeref
            { paymentProviders := fun k => if k = N then some Ptr.null else gw.paymentProviders k }
            "" := by
  simp [PaymentGateWay.processPayment, PaymentGateWay.refundPayment,
    PaymentGateWay.verifyPayment, ProviderMap.index_of_none _ _ h]

/-- Two gateways with the same entry at every name are equal. -/
theorem PaymentGateWay.eq_of_lookup (a b : PaymentGateWay)
    (h : ∀ k, a.paymentProviders k = b.paymentProviders k) : a = b := by
  cases a
  cases b
  congr 1
  funext k
  exact h k

/-- Inserting a null entry for `M` and registering another name `N` commute. -/
theorem PaymentGateWay.add_after_null_insert (gw : PaymentGateWay) (N M : String)
    (p : Ptr PaymentProvider) (h : M ≠ N) :
    ({ paymentProviders :=
        fun k => if k = M then some Ptr.null
          else (gw.addPaymentProvider N p).paymentProviders k } : PaymentGateWay)
      = PaymentGateWay.addPaymentProvider
          { paymentProviders :=
              fun k => if k = M then some Ptr.null else gw.paymentProviders k } N p := by
  apply PaymentGateWay.eq_of_lookup
  intro k
  by_cases hN : k = N
  · subst hN
    rw [PaymentGateWay.add_lookup_self]
    simp [PaymentGateWay.add_lookup_self, Ne.symm h]
  · rw [PaymentGateWay.add_lookup_other _ _ _ _ hN]
    show (if k = M then some Ptr.null else (gw.addPaymentProvider N p).paymentProviders k) = _
    rw [PaymentGateWay.add_lookup_other _ _ _ _ hN]

/-! The claims of the specification. -/

/-- C1: for every gateway, name `N`, adapter `A` and item `x`, after
`addPaymentProvider(N, A)` the call `processPayment(N, x)` completes, leaves the gateway as it
is, and writes exactly the text that `A`'s `proccessPayment(x)` writes. -/
theorem processPayment_after_register (gw : PaymentGateWay) (N : String) (A : PaymentProvider)
    (x : String) :
    (gw.addPaymentProvider N (Ptr.addr A)).processPayment N x
      = Outcome.returns (gw.addPaymentProvider N (Ptr.addr A))
          { out := (A.proccessPayment x).out, ret := RetVal.void } :=
  PaymentGateWay.processPayment_of_adapter _ N x A (PaymentGateWay.add_lookup_self gw N _)

/-- C7: for every gateway, name `N`, adapter `A` and item `x`, after
`addPaymentProvider(N, A)` the call `refundPayment(N, x)` completes, leaves the gateway as it
is, and writes exactly the text that `A`'s `handleRefund(x)` writes. -/
theorem refundPayment_after_register (gw : PaymentGateWay) (N : String) (A : PaymentProvider)
    (x : String) :
    (gw.addPaymentProvider N (Ptr.addr A)).refundPayment N x
      = Outcome.returns (gw.addPaymentProvider N (Ptr.addr A))
          { out := (A.handleRefund x).out, ret := RetVal.void } :=
  PaymentGateWay.refundPayment_of_adapter _ N x A (PaymentGateWay.add_lookup_self gw N _)

/-- C2: re-registering a name overwrites the previous adapter. For every gateway, name `X`,
adapters `A` and `B` and item, after `addPaymentProvider(X, A)` then `addPaymentProvider(X, B)`
the entry of `X` is `B`, the registry is the one obtained by registering `B` alone, and
`processPayment(X, item)` completes writing exactly the text of `B`'s `proccessPayment(item)`. -/
theorem register_twice_last_wins (gw : PaymentGateWay) (X : String) (A B : PaymentProvider)
    (item : String) :
    ((gw.addPaymentProvider X (Ptr.addr A)).addPaymentProvider X (Ptr.addr B)).paymentProviders X
        = some (Ptr.addr B)
      ∧ (gw.addPaymentProvider X (Ptr.addr A)).addPaymentProvider X (Ptr.addr B)
        = gw.addPaymentProvider X (Ptr.addr B)
      ∧ ((gw.addPaymentProvider X (Ptr.addr A)).addPaymentProvider X (Ptr.addr B)).processPayment
          X item
        = Outcome.returns ((gw.addPaymentProvider X (Ptr.addr A)).addPaymentProvider X (Ptr.addr B))
            { out := (B.proccessPayment item).out, ret := RetVal.void } := by
  refine ⟨PaymentGateWay.add_lookup_self _ X _, ?_, ?_⟩
  · show PaymentGateWay.mk _ = PaymentGateWay.mk _
    congr 1
    funext k
    by_cases hk : k = X
    · simp [ProviderMap.assign, hk]
    · simp [ProviderMap.assign, hk, ProviderMap.index_fst_other _ _ _ hk,
        PaymentGateWay.addPaymentProvider]
  · exact PaymentGateWay.processPayment_of_adapter _ X item B
      (PaymentGateWay.add_lookup_self _ X _)

/-- C3 (as stated, refuted): with `"PayPal"` registered to a `PaypalAdapter` on the empty
gateway, `verifyPayment("PayPal", "1")` completes but the value it returns is not `true`: the
member function is `void`. The same holds for a registered `StripeAdapter`. -/
theorem gateway_verifyPayment_not_true :
    (((PaymentGateWay.ctor.addPaymentProvider "PayPal"
          (Ptr.addr (PaypalAdapter.ctor PayPal.ctor).toPaymentProvider)).verifyPayment
            "PayPal" "1").effect.map Effect.ret = some RetVal.void
        ∧ ((PaymentGateWay.ctor.addPaymentProvider "PayPal"
          (Ptr.addr (PaypalAdapter.ctor PayPal.ctor).toPaymentProvider)).verifyPayment
            "PayPal" "1").effect.map Effect.ret ≠ some (RetVal.bool true))
      ∧ (((PaymentGateWay.ctor.addPaymentProvider "Stripe"
          (Ptr.addr (StripeAdapter.ctor Stripe.ctor).toPaymentProvider)).verifyPayment
            "Stripe" "2").effect.map Effect.ret = some RetVal.void
        ∧ ((PaymentGateWay.ctor.addPaymentProvider "Stripe"
          (Ptr.addr (StripeAdapter.ctor Stripe.ctor).toPaymentProvider)).verifyPayment
            "Stripe" "2").effect.map Effect.ret ≠ some (RetVal.bool true)) := by
  constructor
  · rw [PaymentGateWay.verifyPayment_of_adapter _ _ _ _ (PaymentGateWay.add_lookup_self _ _ _)]
    simp [Outcome.effect]
  · rw [PaymentGateWay.verifyPayment_of_adapter _ _ _ _ (PaymentGateWay.add_lookup_self _ _ _)]
    simp [Outcome.effect]

/-- C3 (amended): for every gateway, every name registered to a `PaypalAdapter` or a
`StripeAdapter` and every transaction id, `verifyPayment(name, transactionId)` completes,
leaves the gateway as it is, writes exactly the verification line of the wrapped mock, and
returns nothing (`void`): the `true` that the mock returns is discarded by the adapter. -/
theorem gateway_verifyPayment_void (gw : PaymentGateWay) (name transactionId : String)
    (A : PaymentProvider) (pal : PayPal) (str : Stripe)
    (hreg : gw.paymentProviders name = some (Ptr.addr A))
    (hA : A = (PaypalAdapter.ctor pal).toPaymentProvider
      ∨ A = (StripeAdapter.ctor str).toPaymentProvider) :
    ∃ mock : Effect,
      ((A = (PaypalAdapter.ctor pal).toPaymentProvider ∧ mock = pal.verifyPayment transactionId)
        ∨ (A = (StripeAdapter.ctor str).toPaymentProvider
            ∧ mock = str.verifyCharge transactionId))
      ∧ mock.ret = RetVal.bool true
      ∧ gw.verifyPayment name transactionId
        = Outcome.returns gw { out := mock.out, ret := RetVal.void } := by
  rw [PaymentGateWay.verifyPayment_of_adapter gw name transactionId A hreg]
  rcases hA with h | h
  · exact ⟨pal.verifyPayment transactionId, Or.inl ⟨h, rfl⟩, rfl, by subst h; rfl⟩
  · exact ⟨str.verifyCharge transactionId, Or.inr ⟨h, rfl⟩, rfl, by subst h; rfl⟩

/-- Witness of C3 (amended): the gateway of `main` after the two registrations, name
`"PayPal"`, transaction id `"1"`. -/
theorem gateway_verifyPayment_void_witness :
    ∃ mock : Effect,
      (((PaypalAdapter.ctor PayPal.ctor).toPaymentProvider
            = (PaypalAdapter.ctor PayPal.ctor).toPaymentProvider
          ∧ mock = PayPal.ctor.verifyPayment "1")
        ∨ ((PaypalAdapter.ctor PayPal.ctor).toPaymentProvider
            = (StripeAdapter.ctor Stripe.ctor).toPaymentProvider
          ∧ mock = Stripe.ctor.verifyCharge "1"))
      ∧ mock.ret = RetVal.bool true
      ∧ ((PaymentGateWay.ctor.addPaymentProvider "PayPal"
            (Ptr.addr (PaypalAdapter.ctor PayPal.ctor).toPaymentProvider)).addPaymentProvider
              "Stripe" (Ptr.addr (StripeAdapter.ctor Stripe.ctor).toPaymentProvider)).verifyPayment
            "PayPal" "1"
        = Outcome.returns
            ((PaymentGateWay.ctor.addPaymentProvider "PayPal"
              (Ptr.addr (PaypalAdapter.ctor PayPal.ctor).toPaymentProvider)).addPaymentProvider
                "Stripe" (Ptr.addr (StripeAdapter.ctor Stripe.ctor).toPaymentProvider))
            { out := mock.out, ret := RetVal.void } :=
  gateway_verifyPayment_void _ "PayPal" "1" (PaypalAdapter.ctor PayPal.ctor).toPaymentProvider
    PayPal.ctor Stripe.ctor
    (by
      rw [PaymentGateWay.add_lookup_other _ _ _ _ (by decide)]
      exact PaymentGateWay.add_lookup_self _ _ _)
    (Or.inl rfl)

/-- C4 (as stated, refuted): on the empty gateway, where `"Visa"` was never registered, each of
`processPayment`, `refundPayment` and `verifyPayment` called with `"Visa"` ends in a call through
a null adapter pointer. -/
theorem dispatch_unregistered_derefs_null :
    (PaymentGateWay.ctor.processPayment "Visa" "apple").derefsNull = true
      ∧ (PaymentGateWay.ctor.refundPayment "Visa" "apple").derefsNull = true
      ∧ (PaymentGateWay.ctor.verifyPayment "Visa" "1").derefsNull = true := by
  have h := PaymentGateWay.dispatch_of_absent PaymentGateWay.ctor "Visa"
  refine ⟨?_, ?_, ?_⟩
  · rw [(h "apple" rfl).1]; rfl
  · rw [(h "apple" rfl).2.1]; rfl
  · rw [(h "1" rfl).2.2]; rfl

/-- C4 (amended): for every gateway, every name that is not a key of the registry and every
argument, each of `processPayment`, `refundPayment` and `verifyPayment` raises no error: the
lookup `paymentProviders[name]` inserts a null entry for the name and the call is made through
that null pointer, before anything is written. -/
theorem dispatch_unregistered_null_entry (gw : PaymentGateWay) (name arg : String)
    (h : gw.registered name = false) :
    gw.processPayment name arg
        = Outcome.nullDeref
            { paymentProviders :=
                fun k => if k = name then some Ptr.null else gw.paymentProviders k } ""
      ∧ gw.refundPayment name arg
        = Outcome.nullDeref
            { paymentProviders :=
                fun k => if k = name then some Ptr.null else gw.paymentProviders k } ""
      ∧ gw.verifyPayment name arg
        = Outcome.nullDeref
            { paymentProviders :=
                fun k => if k = name then some Ptr.null else gw.paymentProviders k } "" := by
  apply PaymentGateWay.dispatch_of_absent
  simpa [PaymentGateWay.registered] using h

/-- Witness of C4 (amended): the empty gateway and the name `"Visa"`. -/
theorem dispatch_unregistered_null_entry_witness :
    PaymentGateWay.ctor.registered "Visa" = false
      ∧ PaymentGateWay.ctor.processPayment "Visa" "apple"
        = Outcome.nullDeref
            { paymentProviders :=
                fun k => if k = "Visa" then some Ptr.null
                  else PaymentGateWay.ctor.paymentProviders k } ""
      ∧ PaymentGateWay.ctor.refundPayment "Visa" "apple"
        = Outcome.nullDeref
            { paymentProviders :=
                fun k => if k = "Visa" then some Ptr.null
                  else PaymentGateWay.ctor.paymentProviders k } ""
      ∧ PaymentGateWay.ctor.verifyPayment "Visa" "apple"
        = Outcome.nullDeref
            { paymentProviders :=
                fun k => if k = "Visa" then some Ptr.null
                  else PaymentGateWay.ctor.paymentProviders k } "" :=
  ⟨rfl, dispatch_unregistered_null_entry PaymentGateWay.ctor "Visa" "apple" rfl⟩

/-- C5: every adapter operation forwards its argument unchanged. For every string `s`, the
three operations of a `PaypalAdapter` write exactly what `makePayment(s)`, `refundPayment(s)`
and `verifyPayment(s)` of its `PayPal` write, the three operations of a `StripeAdapter` write
exactly what `chargePayment(s)`, `issueRefund(s)` and `verifyCharge(s)` of its `Stripe` write,
and that text is the fixed prefix, then `s`, then the end of line. -/
theorem adapters_forward_unchanged (pa : PaypalAdapter) (sa : StripeAdapter) (s : String) :
    ((pa.proccessPayment s).out = (pa.payPal.makePayment s).out
        ∧ (pa.proccessPayment s).out = "Making PayPal payment for item: " ++ s ++ "\n")
      ∧ ((pa.handleRefund s).out = (pa.payPal.refundPayment s).out
        ∧ (pa.handleRefund s).out = "Refunding PayPal payment for item: " ++ s ++ "\n")
      ∧ ((pa.verifyPayment s).out = (pa.payPal.verifyPayment s).out
        ∧ (pa.verifyPayment s).out
          = "Verifying PayPal payment with transaction ID: " ++ s ++ "\n")
      ∧ ((sa.proccessPayment s).out = (sa.stripe.chargePayment s).out
        ∧ (sa.proccessPayment s).out = "Charging Stripe payment for item: " ++ s ++ "\n")
      ∧ ((sa.handleRefund s).out = (sa.stripe.issueRefund s).out
        ∧ (sa.handleRefund s).out = "Issuing Refund for Stripe payment for item: " ++ s ++ "\n")
      ∧ ((sa.verifyPayment s).out = (sa.stripe.verifyCharge s).out
        ∧ (sa.verifyPayment s).out
          = "Verifying Stripe payment with transaction ID: " ++ s ++ "\n") :=
  ⟨⟨rfl, rfl⟩, ⟨rfl, rfl⟩, ⟨rfl, rfl⟩, ⟨rfl, rfl⟩, ⟨rfl, rfl⟩, ⟨rfl, rfl⟩⟩

/-- C8: the verification operations of the mocks always succeed. For every transaction id,
`PayPal::verifyPayment` and `Stripe::verifyCharge` write their line with the id and return
`true`, whatever the id is. -/
theorem mock_verify_always_true (pal : PayPal) (str : Stripe) (transactionId : String) :
    pal.verifyPayment transactionId
        = { out := "Verifying PayPal payment with transaction ID: " ++ transactionId ++ "\n",
            ret := RetVal.bool true }
      ∧ str.verifyCharge transactionId
        = { out := "Verifying Stripe payment with transaction ID: " ++ transactionId ++ "\n",
            ret := RetVal.bool true } :=
  ⟨rfl, rfl⟩

/-- C6: the demonstration `main` terminates normally with value 0, never looks up an
unregistered name (the registry at the end is the one left by the two registrations, with no
inserted null entry), and writes exactly six lines in this order: PayPal payment for `apple`,
Stripe charge for `orange`, PayPal refund for `apple`, Stripe refund for `orange`, PayPal
verification of `1`, Stripe verification of `2`; each line is the text of one call of the
corresponding mock operation. -/
theorem main_six_lines :
    main
        = Outcome.returns
            ((PaymentGateWay.ctor.addPaymentProvider "PayPal"
              (Ptr.addr (PaypalAdapter.ctor PayPal.ctor).toPaymentProvider)).addPaymentProvider
                "Stripe" (Ptr.addr (StripeAdapter.ctor Stripe.ctor).toPaymentProvider))
            { out := "Making PayPal payment for item: apple\n"
                ++ "Charging Stripe payment for item: orange\n"
                ++ "Refunding PayPal payment for item: apple\n"
                ++ "Issuing Refund for Stripe payment for item: orange\n"
                ++ "Verifying PayPal payment with transaction ID: 1\n"
                ++ "Verifying Stripe payment with transaction ID: 2\n",
              ret := RetVal.int 0 }
      ∧ main.completes = true
      ∧ main.effect.map Effect.out
        = some ((PayPal.ctor.makePayment "apple").out ++ (Stripe.ctor.chargePayment "orange").out
            ++ (PayPal.ctor.refundPayment "apple").out ++ (Stripe.ctor.issueRefund "orange").out
            ++ (PayPal.ctor.verifyPayment "1").out ++ (Stripe.ctor.verifyCharge "2").out)
      ∧ main.effect.map (fun e => e.out.toList.count (Char.ofNat 10)) = some 6
      ∧ (∀ k, main.gateway.registered k = true ↔ k = "PayPal" ∨ k = "Stripe") := by
  have hmain : main
        = Outcome.returns
            ((PaymentGateWay.ctor.addPaymentProvider "PayPal"
              (Ptr.addr (PaypalAdapter.ctor PayPal.ctor).toPaymentProvider)).addPaymentProvider
                "Stripe" (Ptr.addr (StripeAdapter.ctor Stripe.ctor).toPaymentProvider))
            { out := "Making PayPal payment for item: apple\n"
                ++ "Charging Stripe payment for item: orange\n"
                ++ "Refunding PayPal payment for item: apple\n"
                ++ "Issuing Refund for Stripe payment for item: orange\n"
                ++ "Verifying PayPal payment with transaction ID: 1\n"
                ++ "Verifying Stripe payment with transaction ID: 2\n",
              ret := RetVal.int 0 } := by
    have hP : ∀ p, ((PaymentGateWay.ctor.addPaymentProvider "PayPal"
        (Ptr.addr (PaypalAdapter.ctor PayPal.ctor).toPaymentProvider)).addPaymentProvider
          "Stripe" p).paymentProviders "PayPal"
          = some (Ptr.addr (PaypalAdapter.ctor PayPal.ctor).toPaymentProvider) := fun p => by
      rw [PaymentGateWay.add_lookup_other _ _ _ _ (by decide)]
      exact PaymentGateWay.add_lookup_self _ _ _
    unfold main
    simp only [PaymentGateWay.processPayment_of_adapter _ _ _ _ (hP _),
      PaymentGateWay.refundPayment_of_adapter _ _ _ _ (hP _),
      PaymentGateWay.verifyPayment_of_adapter _ _ _ _ (hP _),
      PaymentGateWay.processPayment_of_adapter _ _ _ _ (PaymentGateWay.add_lookup_self _ _ _),
      PaymentGateWay.refundPayment_of_adapter _ _ _ _ (PaymentGateWay.add_lookup_self _ _ _),
      PaymentGateWay.verifyPayment_of_adapter _ _ _ _ (PaymentGateWay.add_lookup_self _ _ _),
      Outcome.andThen]
    rfl
  refine ⟨hmain, ?_, ?_, ?_, ?_⟩
  · rw [hmain]; rfl
  · rw [hmain]; rfl
  · rw [hmain]; exact congrArg some (by decide)
  · intro k
    rw [hmain]
    show ((PaymentGateWay.ctor.addPaymentProvider "PayPal" _).addPaymentProvider
      "Stripe" _).registered k = true ↔ _
    unfold PaymentGateWay.registered
    by_cases h2 : k = "Stripe"
    · subst h2
      simp [PaymentGateWay.add_lookup_self]
    · rw [PaymentGateWay.add_lookup_other _ _ _ _ h2]
      by_cases h1 : k = "PayPal"
      · subst h1
        simp [PaymentGateWay.add_lookup_self]
      · rw [PaymentGateWay.add_lookup_other _ _ _ _ h1]
        simp [h1, h2, PaymentGateWay.ctor, ProviderMap.empty]

/-- C9 (as stated, refuted): on the empty gateway, where `"Visa"` is not registered, each
dispatch call with `"Visa"` changes the registry: the lookup `paymentProviders["Visa"]` adds an
entry for `"Visa"`. -/
theorem dispatch_unregistered_adds_entry :
    PaymentGateWay.ctor.registered "Visa" = false
      ∧ ((PaymentGateWay.ctor.processPayment "Visa" "apple").gateway.registered "Visa" = true
        ∧ (PaymentGateWay.ctor.processPayment "Visa" "apple").gateway ≠ PaymentGateWay.ctor)
      ∧ ((PaymentGateWay.ctor.refundPayment "Visa" "apple").gateway.registered "Visa" = true
        ∧ (PaymentGateWay.ctor.refundPayment "Visa" "apple").gateway ≠ PaymentGateWay.ctor)
      ∧ ((PaymentGateWay.ctor.verifyPayment "Visa" "1").gateway.registered "Visa" = true
        ∧ (PaymentGateWay.ctor.verifyPayment "Visa" "1").gateway ≠ PaymentGateWay.ctor) := by
  have h := PaymentGateWay.dispatch_of_absent PaymentGateWay.ctor "Visa"
  have key : ∀ g : PaymentGateWay, g.registered "Visa" = true → g ≠ PaymentGateWay.ctor := by
    intro g hg heq
    rw [heq] at hg
    exact Bool.false_ne_true hg
  have e1 : (PaymentGateWay.ctor.processPayment "Visa" "apple").gateway.registered "Visa"
      = true := by
    rw [(h "apple" rfl).1]; rfl
  have e2 : (PaymentGateWay.ctor.refundPayment "Visa" "apple").gateway.registered "Visa"
      = true := by
    rw [(h "apple" rfl).2.1]; rfl
  have e3 : (PaymentGateWay.ctor.verifyPayment "Visa" "1").gateway.registered "Visa"
      = true := by
    rw [(h "1" rfl).2.2]; rfl
  exact ⟨rfl, ⟨e1, key _ e1⟩, ⟨e2, key _ e2⟩, ⟨e3, key _ e3⟩⟩

/-- C9 (amended): for every gateway, every name that is a key of the registry and every
argument, `processPayment`, `refundPayment` and `verifyPayment` leave the registry exactly as
it was. -/
theorem dispatch_registered_keeps_registry (gw : PaymentGateWay) (name arg : String)
    (h : gw.registered name = true) :
    (gw.processPayment name arg).gateway = gw
      ∧ (gw.refundPayment name arg).gateway = gw
      ∧ (gw.verifyPayment name arg).gateway = gw := by
  unfold PaymentGateWay.registered at h
  obtain ⟨p, hp⟩ := Option.isSome_iff_exists.mp h
  cases p with
  | null =>
    obtain ⟨h1, h2, h3⟩ := PaymentGateWay.dispatch_of_null gw name arg hp
    rw [h1, h2, h3]
    exact ⟨rfl, rfl, rfl⟩
  | addr A =>
    rw [PaymentGateWay.processPayment_of_adapter gw name arg A hp,
      PaymentGateWay.refundPayment_of_adapter gw name arg A hp,
      PaymentGateWay.verifyPayment_of_adapter gw name arg A hp]
    exact ⟨rfl, rfl, rfl⟩

/-- Witness of C9 (amended): the gateway with `"PayPal"` registered, dispatching on
`"PayPal"`. -/
theorem dispatch_registered_keeps_registry_witness :
    (PaymentGateWay.ctor.addPaymentProvider "PayPal"
        (Ptr.addr (PaypalAdapter.ctor PayPal.ctor).toPaymentProvider)).registered "PayPal" = true
      ∧ ((PaymentGateWay.ctor.addPaymentProvider "PayPal"
          (Ptr.addr (PaypalAdapter.ctor PayPal.ctor).toPaymentProvider)).processPayment
            "PayPal" "apple").gateway
        = PaymentGateWay.ctor.addPaymentProvider "PayPal"
            (Ptr.addr (PaypalAdapter.ctor PayPal.ctor).toPaymentProvider)
      ∧ ((PaymentGateWay.ctor.addPaymentProvider "PayPal"
          (Ptr.addr (PaypalAdapter.ctor PayPal.ctor).toPaymentProvider)).refundPayment
            "PayPal" "apple").gateway
        = PaymentGateWay.ctor.addPaymentProvider "PayPal"
            (Ptr.addr (PaypalAdapter.ctor PayPal.ctor).toPaymentProvider)
      ∧ ((PaymentGateWay.ctor.addPaymentProvider "PayPal"
          (Ptr.addr (PaypalAdapter.ctor PayPal.ctor).toPaymentProvider)).verifyPayment
            "PayPal" "apple").gateway
        = PaymentGateWay.ctor.addPaymentProvider "PayPal"
            (Ptr.addr (PaypalAdapter.ctor PayPal.ctor).toPaymentProvider) :=
  ⟨rfl, dispatch_registered_keeps_registry _ "PayPal" "apple" rfl⟩

/-- C10: registration affects only the registered name. For every gateway, names `N` and `M`
with `M` different from `N`, every pointer `A` registered under `N` and every argument: the
entry of `M` is the same before and after `addPaymentProvider(N, A)`, each of `processPayment`,
`refundPayment` and `verifyPayment` on `M` has the same observable result (the same text and
value, or the same fault) as before the registration, and the registry it leaves is the one it
left before, with `N` registered to `A`. -/
theorem register_frames_other_names (gw : PaymentGateWay) (N M : String)
    (A : Ptr PaymentProvider) (arg : String) (h : M ≠ N) :
    (gw.addPaymentProvider N A).paymentProviders M = gw.paymentProviders M
      ∧ (((gw.addPaymentProvider N A).processPayment M arg).effect
          = (gw.processPayment M arg).effect
        ∧ ((gw.addPaymentProvider N A).processPayment M arg).gateway
          = (gw.processPayment M arg).gateway.addPaymentProvider N A)
      ∧ (((gw.addPaymentProvider N A).refundPayment M arg).effect
          = (gw.refundPayment M arg).effect
        ∧ ((gw.addPaymentProvider N A).refundPayment M arg).gateway
          = (gw.refundPayment M arg).gateway.addPaymentProvider N A)
      ∧ (((gw.addPaymentProvider N A).verifyPayment M arg).effect
          = (gw.verifyPayment M arg).effect
        ∧ ((gw.addPaymentProvider N A).verifyPayment M arg).gateway
          = (gw.verifyPayment M arg).gateway.addPaymentProvider N A) := by
  have hM := PaymentGateWay.add_lookup_other gw N M A h
  refine ⟨hM, ?_⟩
  cases hgw : gw.paymentProviders M with
  | none =>
    rw [hgw] at hM
    obtain ⟨a1, a2, a3⟩ := PaymentGateWay.dispatch_of_absent _ M arg hM
    obtain ⟨b1, b2, b3⟩ := PaymentGateWay.dispatch_of_absent gw M arg hgw
    rw [a1, a2, a3, b1, b2, b3]
    have hg := PaymentGateWay.add_after_null_insert gw N M A h
    exact ⟨⟨rfl, hg⟩, ⟨rfl, hg⟩, ⟨rfl, hg⟩⟩
  | some p =>
    rw [hgw] at hM
    cases p with
    | null =>
      obtain ⟨a1, a2, a3⟩ := PaymentGateWay.dispatch_of_null _ M arg hM
      obtain ⟨b1, b2, b3⟩ := PaymentGateWay.dispatch_of_null gw M arg hgw
      rw [a1, a2, a3, b1, b2, b3]
      exact ⟨⟨rfl, rfl⟩, ⟨rfl, rfl⟩, ⟨rfl, rfl⟩⟩
    | addr B =>
      rw [PaymentGateWay.processPayment_of_adapter _ M arg B hM,
        PaymentGateWay.refundPayment_of_adapter _ M arg B hM,
        PaymentGateWay.verifyPayment_of_adapter _ M arg B hM,
        PaymentGateWay.processPayment_of_adapter gw M arg B hgw,
        PaymentGateWay.refundPayment_of_adapter gw M arg B hgw,
        PaymentGateWay.verifyPayment_of_adapter gw M arg B hgw]
      exact ⟨⟨rfl, rfl⟩, ⟨rfl, rfl⟩, ⟨rfl, rfl⟩⟩

/-- Witness of C10: the gateway with `"PayPal"` registered, registering `"Stripe"`, observed at
`"PayPal"`. -/
theorem register_frames_other_names_witness :
    "PayPal" ≠ "Stripe"
      ∧ ((PaymentGateWay.ctor.addPaymentProvider "PayPal"
          (Ptr.addr (PaypalAdapter.ctor PayPal.ctor).toPaymentProvider)).addPaymentProvider
            "Stripe" (Ptr.addr (StripeAdapter.ctor Stripe.ctor).toPaymentProvider)).paymentProviders
          "PayPal"
        = (PaymentGateWay.ctor.addPaymentProvider "PayPal"
            (Ptr.addr (PaypalAdapter.ctor PayPal.ctor).toPaymentProvider)).paymentProviders
              "PayPal"
      ∧ (((PaymentGateWay.ctor.addPaymentProvider "PayPal"
          (Ptr.addr (PaypalAdapter.ctor PayPal.ctor).toPaymentProvider)).addPaymentProvider
            "Stripe" (Ptr.addr (StripeAdapter.ctor Stripe.ctor).toPaymentProvider)).processPayment
          "PayPal" "apple").effect
        = ((PaymentGateWay.ctor.addPaymentProvider "PayPal"
            (Ptr.addr (PaypalAdapter.ctor PayPal.ctor).toPaymentProvider)).processPayment
              "PayPal" "apple").effect :=
  ⟨by decide,
    (register_frames_other_names
      (PaymentGateWay.ctor.addPaymentProvider "PayPal"
        (Ptr.addr (PaypalAdapter.ctor PayPal.ctor).toPaymentProvider))
      "Stripe" "PayPal" (Ptr.addr (StripeAdapter.ctor Stripe.ctor).toPaymentProvider) "apple"
      (by decide)).1,
    (register_frames_other_names
      (PaymentGateWay.ctor.addPaymentProvider "PayPal"
        (Ptr.addr (PaypalAdapter.ctor PayPal.ctor).toPaymentProvider))
      "Stripe" "PayPal" (Ptr.addr (StripeAdapter.ctor Stripe.ctor).toPaymentProvider) "apple"
      (by decide)).2.1.1⟩

end Adapter
